import Mathlib

/-!
Shallow embedding of `src/main.py` from python-robo-clipper: a single-file
pipeline that loads match records from JSON, filters them by an optional
numeric range, determines a reference timestamp, computes per-match video
positions, and invokes ffmpeg once per surviving match.

Numeric values (JSON numbers, CLI float arguments, timestamps) are modelled
as rationals; Python float arithmetic is idealised as exact arithmetic.
A match record, a JSON object in the source, is modelled as its `number`
field (optional), its `name` field (optional string) and the association
list of its event-key/timestamp entries; the Python membership test
`key in match` for an event key is modelled as a lookup in that list.
-/

/-- A match record from the input JSON: an optional numeric `number`, an
optional string `name`, and event-key to millisecond-timestamp entries. -/
structure MatchRecord where
  number : Option ℚ
  name : Option String
  events : List (String × ℚ)
deriving DecidableEq, Repr

/-- The CLI arguments that reach the computation (from `parse_arguments`):
`--range` is two floats or absent, `--offset` and the two adjustment
offsets are floats, `--start`/`--end` are event-key names, `--video` and
`--out` are paths. -/
structure Args where
  video : String
  range : Option (ℚ × ℚ)
  offset : ℚ
  startKey : String
  endKey : String
  startOffset : ℚ
  endOffset : ℚ
  out : String
deriving DecidableEq, Repr

/-- The sort key `m.get("number", 0)` used by both `find_reference_time`
and the main processing loop. -/
def MatchRecord.numberKey (m : MatchRecord) : ℚ :=
  m.number.getD 0

/-- Event lookup, modelling `args.start in match` and `match[args.start]`. -/
def MatchRecord.event (m : MatchRecord) (key : String) : Option ℚ :=
  m.events.lookup key

/-- Python `filter_matches(matches, range_vals)` (src/main.py lines 34-38):
with no range, all records pass; with a range, keep records that have a
`number` field with `start_num <= number <= end_num`. -/
def filter_matches («matches» : List MatchRecord) (range_vals : Option (ℚ × ℚ)) :
    List MatchRecord :=
  match range_vals with
  | none => «matches»
  | some (start_num, end_num) =>
      «matches».filter fun m =>
        match m.number with
        | some n => decide (start_num ≤ n) && decide (n ≤ end_num)
        | none => false

/-- Python `sorted(matches, key=lambda m: m.get("number", 0))`; Python's `sorted`
is a stable sort, modelled by `List.mergeSort`. -/
def sortByNumber («matches» : List MatchRecord) : List MatchRecord :=
  «matches».mergeSort fun a b => decide (a.numberKey ≤ b.numberKey)

/-- Python `find_reference_time(matches, start_event)` (src/main.py lines 40-47):
scan the «matches» sorted by `number` (missing treated as 0) and return the
first found start-event timestamp divided by 1000; `None` if no match
contains the key. -/
def find_reference_time («matches» : List MatchRecord) (start_event : String) :
    Option ℚ :=
  (sortByNumber «matches»).findSome? fun m => (m.event start_event).map (· / 1000)

/-- The match display name `match.get("name", ...)` with the fallback
`Match_` followed by the number, or `Match_unknown` with no number
(src/main.py line 103). Python's rendering of the number is modelled by
`toString` on the rational. -/
def match_name (m : MatchRecord) : String :=
  m.name.getD ("Match_" ++ (match m.number with
    | some n => toString n
    | none => "unknown"))

/-- Line 117 of src/main.py:
`video_start_time = (start_event_time - ref_time) + args.offset + args.startOffset`,
(src/main.py line 117), where `start_event_time = match[args.start] / 1000`. -/
def video_start_time (args : Args) (ref_time start_event_ms : ℚ) : ℚ :=
  (start_event_ms / 1000 - ref_time) + args.offset + args.startOffset

/-- Line 118 of src/main.py:
`video_end_time = (end_event_time - ref_time) + args.offset + args.endOffset`,
(src/main.py line 118), where `end_event_time = match[args.end] / 1000`. -/
def video_end_time (args : Args) (ref_time end_event_ms : ℚ) : ℚ :=
  (end_event_ms / 1000 - ref_time) + args.offset + args.endOffset

/-- The computed `duration = video_end_time - video_start_time` (src/main.py line 120). -/
def clip_duration (args : Args) (ref_time start_event_ms end_event_ms : ℚ) : ℚ :=
  video_end_time args ref_time end_event_ms - video_start_time args ref_time start_event_ms

/-- The output path `os.path.join(args.out, ...)` with file name
`full-match-` followed by the match name and `.mkv`
(src/main.py line 126). -/
def output_file_name (out : String) (m : MatchRecord) : String :=
  out ++ "/full-match-" ++ match_name m ++ ".mkv"

/-- One invocation of the external media tool (the `subprocess.run` call in
`run_ffmpeg`, src/main.py lines 49-60). -/
structure FfmpegCall where
  video : String
  start_time : ℚ
  duration : ℚ
  output_file : String
deriving DecidableEq, Repr

/-- The exit status and captured standard error of one external-tool run. -/
structure ProcResult where
  returncode : Int
  stderr : String
deriving DecidableEq, Repr

/-- The messages the program prints, one constructor per print call that
the per-match pipeline can emit. -/
inductive Msg where
  /-- The message `Match ... missing event ... Skipping` (lines 106, 109). -/
  | missingEvent (matchName key : String)
  /-- The message `Error: Invalid duration for match ... Skipping` (line 123). -/
  | invalidDuration (matchName : String) (video_start video_end : ℚ)
  /-- The `Processing match ...` block of prints (lines 127-130). -/
  | processing (matchName : String) (video_start duration : ℚ)
  /-- The command echo `Running: ...` printed by `run_ffmpeg` (line 59). -/
  | running (call : FfmpegCall)
  /-- The message `Error processing ...` with the stderr, on non-zero exit (line 62). -/
  | ffmpegError (output_file stderr : String)
deriving DecidableEq, Repr

/-- Python `run_ffmpeg(video_file, start_time, duration, output_file)`
(src/main.py lines 49-62): build the command, run it (the external world is
an oracle `ffmpeg` mapping the call to its result), and on non-zero exit
print an error with the captured stderr. Returns the emitted messages and
the single invocation performed. -/
def run_ffmpeg (ffmpeg : FfmpegCall → ProcResult)
    (video_file : String) (start_time duration : ℚ) (output_file : String) :
    List Msg × List FfmpegCall :=
  let call : FfmpegCall := ⟨video_file, start_time, duration, output_file⟩
  let result := ffmpeg call
  if result.returncode ≠ 0 then
    ([Msg.running call, Msg.ffmpegError output_file result.stderr], [call])
  else
    ([Msg.running call], [call])

/-- The body of the per-match loop (src/main.py lines 102-132): skip with a
message if either event key is missing, compute the video positions, skip
with a message if the duration is non-positive, otherwise print the
processing block and run ffmpeg. -/
def process_match (args : Args) (ffmpeg : FfmpegCall → ProcResult)
    (ref_time : ℚ) (m : MatchRecord) : List Msg × List FfmpegCall :=
  let name := match_name m
  match m.event args.startKey with
  | none => ([Msg.missingEvent name args.startKey], [])
  | some start_ms =>
    match m.event args.endKey with
    | none => ([Msg.missingEvent name args.endKey], [])
    | some end_ms =>
      let vs := video_start_time args ref_time start_ms
      let ve := video_end_time args ref_time end_ms
      let duration := ve - vs
      if duration ≤ 0 then
        ([Msg.invalidDuration name vs ve], [])
      else
        let output_file := output_file_name args.out m
        let (msgs, calls) := run_ffmpeg ffmpeg args.video vs duration output_file
        (Msg.processing name vs duration :: msgs, calls)

/-- The per-match loop over the sorted filtered «matches»: each match is
processed in turn and its messages and invocations are appended; no
outcome of one match stops the loop. -/
def process_all (args : Args) (ffmpeg : FfmpegCall → ProcResult)
    (ref_time : ℚ) : List MatchRecord → List Msg × List FfmpegCall
  | [] => ([], [])
  | m :: rest =>
      let head := process_match args ffmpeg ref_time m
      let tail := process_all args ffmpeg ref_time rest
      (head.1 ++ tail.1, head.2 ++ tail.2)

/-- The observable result of one run of `main` (src/main.py lines 64-132).
Parse errors of the JSON content are outside the embedding; the loaded
data is modelled as `none` when the top-level `«matches»` key is absent. -/
inductive MainResult where
  /-- Exit 1 via `sys.exit(1)` because the JSON file does not exist (line 70). -/
  | jsonMissing
  /-- Exit 1 via `sys.exit(1)` because the video file does not exist (line 73). -/
  | videoMissing
  /-- Exit 1 via `sys.exit(1)` because the data lacks the `matches` key (line 83). -/
  | noMatchesKey
  /-- Exit 0 via `sys.exit(0)` after `No matches found for the specified range.` (line 91). -/
  | noMatchesFound
  /-- Exit 1 via `sys.exit(1)` because no filtered match contains the start key (line 97). -/
  | noReferenceTime
  /-- Normal completion: the reference time and the per-match trace. -/
  | completed (ref_time : ℚ) (msgs : List Msg) (calls : List FfmpegCall)
deriving DecidableEq, Repr

/-- The process exit code of each `MainResult` (src/main.py: `sys.exit(1)`
on lines 70, 73, 83, 97; `sys.exit(0)` on line 91; falling off the end of
`main` exits 0). -/
def MainResult.exitCode : MainResult → Nat
  | .jsonMissing => 1
  | .videoMissing => 1
  | .noMatchesKey => 1
  | .noMatchesFound => 0
  | .noReferenceTime => 1
  | .completed _ _ _ => 0

/-- The part of the environment `main` consults: whether the two input
files exist, and the parsed JSON data (`none` models an object without the
top-level `«matches»` key). -/
structure Env where
  json_exists : Bool
  video_exists : Bool
  matchesData : Option (List MatchRecord)
deriving DecidableEq, Repr

/-- Python `main()` (src/main.py lines 64-132): check the input files, load the
data, filter by range, report when the filtered set is empty, find the
reference time (fatal when absent), then process every filtered match in
`number` order. -/
def main_run (env : Env) (args : Args) (ffmpeg : FfmpegCall → ProcResult) :
    MainResult :=
  if !env.json_exists then .jsonMissing
  else if !env.video_exists then .videoMissing
  else
    match env.matchesData with
    | none => .noMatchesKey
    | some «matches» =>
      let filtered_matches := filter_matches «matches» args.range
      if filtered_matches.isEmpty then .noMatchesFound
      else
        match find_reference_time filtered_matches args.startKey with
        | none => .noReferenceTime
        | some ref_time =>
          let trace := process_all args ffmpeg ref_time (sortByNumber filtered_matches)
          .completed ref_time trace.1 trace.2

/-! ### Helper lemmas about the stable sort by `number` -/

/-- Membership is preserved by the sort. -/
theorem mem_sortByNumber {m : MatchRecord} {l : List MatchRecord} :
    m ∈ sortByNumber l ↔ m ∈ l :=
  List.mem_mergeSort

/-- The sorted list is pairwise ordered by the sort key. -/
theorem sortByNumber_pairwise (l : List MatchRecord) :
    (sortByNumber l).Pairwise fun a b => a.numberKey ≤ b.numberKey := by
  have h := @List.sorted_mergeSort MatchRecord
      (fun a b : MatchRecord => decide (a.numberKey ≤ b.numberKey))
      (fun a b c hab hbc => by
        simp only [decide_eq_true_eq] at *
        exact le_trans hab hbc)
      (fun a b => by
        simp only [Bool.or_eq_true, decide_eq_true_eq]
        exact le_total _ _)
      l
  exact h.imp fun hab => by simpa using hab

/-- Sorting an already sorted list changes nothing. -/
theorem sortByNumber_of_sorted {l : List MatchRecord}
    (h : l.Pairwise fun a b => a.numberKey ≤ b.numberKey) : sortByNumber l = l :=
  List.mergeSort_of_sorted (h.imp fun hab => decide_eq_true hab)

/-- Scanning a list that is pairwise ordered by the sort key yields the
timestamp of a key-containing element whose sort key is minimal among the
key-containing elements. -/
theorem findSome?_event_min {k : String} :
    ∀ {l : List MatchRecord},
      (l.Pairwise fun a b => a.numberKey ≤ b.numberKey) →
      ∀ {t : ℚ}, (l.findSome? fun m => (m.event k).map (· / 1000)) = some t →
      ∃ m ts, m ∈ l ∧ m.event k = some ts ∧ t = ts / 1000 ∧
        ∀ m' ∈ l, (m'.event k).isSome → m.numberKey ≤ m'.numberKey
  | [], _, _, hf => by simp at hf
  | a :: l, hp, t, hf => by
    rw [List.pairwise_cons] at hp
    rw [List.findSome?_cons] at hf
    cases ha : a.event k with
    | some ts =>
        rw [ha] at hf
        simp only [Option.map_some'] at hf
        refine ⟨a, ts, List.mem_cons_self a l, ha, (Option.some.inj hf).symm, ?_⟩
        intro m' hm' _
        rcases List.mem_cons.mp hm' with h | h
        · exact h ▸ le_refl _
        · exact hp.1 m' h
    | none =>
        rw [ha] at hf
        simp only [Option.map_none'] at hf
        obtain ⟨m, ts, hm, hev, ht, hmin⟩ := findSome?_event_min hp.2 hf
        refine ⟨m, ts, List.mem_cons_of_mem a hm, hev, ht, ?_⟩
        intro m' hm' hsome
        rcases List.mem_cons.mp hm' with h | h
        · rw [h, ha] at hsome; simp at hsome
        · exact hmin m' h hsome

/-- Sorting a one-element list is the identity. -/
theorem sortByNumber_singleton (m : MatchRecord) : sortByNumber [m] = [m] := by
  simp [sortByNumber]

/-- The per-match loop on a cons processes the head and then the rest. -/
theorem process_all_cons (args : Args) (ffmpeg : FfmpegCall → ProcResult)
    (ref_time : ℚ) (m : MatchRecord) (rest : List MatchRecord) :
    process_all args ffmpeg ref_time (m :: rest) =
      ((process_match args ffmpeg ref_time m).1 ++ (process_all args ffmpeg ref_time rest).1,
       (process_match args ffmpeg ref_time m).2 ++ (process_all args ffmpeg ref_time rest).2) :=
  rfl

/-- Whatever the external tool returns, `run_ffmpeg` performs exactly the
one invocation it was asked to perform. -/
theorem run_ffmpeg_calls (ffmpeg : FfmpegCall → ProcResult)
    (video_file : String) (start_time duration : ℚ) (output_file : String) :
    (run_ffmpeg ffmpeg video_file start_time duration output_file).2 =
      [⟨video_file, start_time, duration, output_file⟩] := by
  rw [run_ffmpeg]
  split <;> rfl

/-- C3: with a given range, filtering retains exactly the records that have
a `number` field with lo ≤ number ≤ hi (both ends inclusive; records
without a `number` field are excluded), keeping them in order; with no
range, every record passes through unchanged. -/
theorem C3_filter_matches_spec («matches» : List MatchRecord) (lo hi : ℚ) (m : MatchRecord) :
    (m ∈ filter_matches «matches» (some (lo, hi)) ↔
      m ∈ «matches» ∧ ∃ n, m.number = some n ∧ lo ≤ n ∧ n ≤ hi) ∧
    List.Sublist (filter_matches «matches» (some (lo, hi))) «matches» ∧
    filter_matches «matches» none = «matches» := by
  refine ⟨?_, List.filter_sublist _, rfl⟩
  simp only [filter_matches, List.mem_filter]
  constructor
  · rintro ⟨hm, hp⟩
    refine ⟨hm, ?_⟩
    rcases hn : m.number with _ | n
    · rw [hn] at hp
      simp at hp
    · rw [hn] at hp
      simp only [Bool.and_eq_true, decide_eq_true_eq] at hp
      exact ⟨n, rfl, hp.1, hp.2⟩
  · rintro ⟨hm, n, hn, h1, h2⟩
    refine ⟨hm, ?_⟩
    rw [hn]
    simp [h1, h2]

/-- Witness for C3: the record with number 1 is retained by the range [1, 2]
on both ends of the characterisation. -/
theorem C3_filter_matches_spec_witness :
    (⟨some 1, none, []⟩ ∈ filter_matches [⟨some 1, none, []⟩] (some (1, 2)) ↔
      (⟨some 1, none, []⟩ : MatchRecord) ∈ [(⟨some 1, none, []⟩ : MatchRecord)] ∧
      ∃ n, (⟨some 1, none, []⟩ : MatchRecord).number = some n ∧ 1 ≤ n ∧ n ≤ 2) ∧
    List.Sublist (filter_matches [⟨some 1, none, []⟩] (some (1, 2))) [⟨some 1, none, []⟩] ∧
    filter_matches [⟨some 1, none, []⟩] none = [⟨some 1, none, []⟩] :=
  C3_filter_matches_spec [⟨some 1, none, []⟩] 1 2 ⟨some 1, none, []⟩

/-- C9: for every match record containing both event keys, the computed
duration equals (end_ms - start_ms)/1000 + endOffset - startOffset; it does
not depend on the global offset or on the reference time, which both cancel
out of the subtraction. -/
theorem C9_duration_formula (args args2 : Args) (ref_time ref_time2 ts te : ℚ)
    (m : MatchRecord)
    (h1 : m.event args.startKey = some ts) (h2 : m.event args.endKey = some te)
    (h3 : args2.startOffset = args.startOffset) (h4 : args2.endOffset = args.endOffset) :
    clip_duration args ref_time ts te = (te - ts) / 1000 + args.endOffset - args.startOffset ∧
    clip_duration args2 ref_time2 ts te = clip_duration args ref_time ts te := by
  unfold clip_duration video_start_time video_end_time
  rw [h3, h4]
  constructor <;> ring

/-- Witness for C9: the record with start 1000 and end 5000, under two
argument sets differing in global offset and at two reference times, has
duration 4 both ways. -/
theorem C9_duration_formula_witness :
    ((⟨some 1, none, [("S", 1000), ("E", 5000)]⟩ : MatchRecord).event "S" = some 1000 ∧
     (⟨some 1, none, [("S", 1000), ("E", 5000)]⟩ : MatchRecord).event "E" = some 5000 ∧
     (⟨"v", none, 7, "S", "E", 0, 0, "out"⟩ : Args).startOffset =
       (⟨"v", none, 0, "S", "E", 0, 0, "out"⟩ : Args).startOffset ∧
     (⟨"v", none, 7, "S", "E", 0, 0, "out"⟩ : Args).endOffset =
       (⟨"v", none, 0, "S", "E", 0, 0, "out"⟩ : Args).endOffset) ∧
    (clip_duration ⟨"v", none, 0, "S", "E", 0, 0, "out"⟩ 1 1000 5000 =
        (5000 - 1000) / 1000 + (⟨"v", none, 0, "S", "E", 0, 0, "out"⟩ : Args).endOffset -
          (⟨"v", none, 0, "S", "E", 0, 0, "out"⟩ : Args).startOffset ∧
     clip_duration ⟨"v", none, 7, "S", "E", 0, 0, "out"⟩ 42 1000 5000 =
        clip_duration ⟨"v", none, 0, "S", "E", 0, 0, "out"⟩ 1 1000 5000) :=
  ⟨⟨by decide, by decide, rfl, rfl⟩,
   C9_duration_formula ⟨"v", none, 0, "S", "E", 0, 0, "out"⟩
     ⟨"v", none, 7, "S", "E", 0, 0, "out"⟩ 1 42 1000 5000
     ⟨some 1, none, [("S", 1000), ("E", 5000)]⟩ (by decide) (by decide) rfl rfl⟩

/-- C1: for every filtered match list in which at least one record contains
the start-event key, the reference time equals the start-event timestamp
divided by 1000 (milliseconds to seconds) of a record that contains the key
and whose `number` sort key is lowest among the key-containing records,
taken after range filtering. -/
theorem C1_reference_time («matches» : List MatchRecord) (range_vals : Option (ℚ × ℚ))
    (start_event : String)
    (h : ∃ m ∈ filter_matches «matches» range_vals, (m.event start_event).isSome) :
    ∃ m ts, m ∈ filter_matches «matches» range_vals ∧
      m.event start_event = some ts ∧
      find_reference_time (filter_matches «matches» range_vals) start_event =
        some (ts / 1000) ∧
      ∀ m' ∈ filter_matches «matches» range_vals, (m'.event start_event).isSome →
        m.numberKey ≤ m'.numberKey := by
  obtain ⟨m₀, hm₀, hs₀⟩ := h
  have hne : find_reference_time (filter_matches «matches» range_vals) start_event ≠ none := by
    rw [find_reference_time]
    intro hnone
    rw [List.findSome?_eq_none_iff] at hnone
    have h₀ := hnone m₀ (mem_sortByNumber.mpr hm₀)
    rcases hs : m₀.event start_event with _ | v
    · rw [hs] at hs₀
      simp at hs₀
    · rw [hs] at h₀
      simp at h₀
  obtain ⟨t, ht⟩ := Option.ne_none_iff_exists'.mp hne
  rw [find_reference_time] at ht
  obtain ⟨m, ts, hm, hev, htts, hmin⟩ :=
    findSome?_event_min (sortByNumber_pairwise _) ht
  refine ⟨m, ts, mem_sortByNumber.mp hm, hev, ?_, ?_⟩
  · rw [find_reference_time, ht, htts]
  · intro m' hm' hsome
    exact hmin m' (mem_sortByNumber.mpr hm') hsome

/-- Witness for C1: a two-record list where the record with number 1 holds
the start-event key with timestamp 1000. -/
theorem C1_reference_time_witness :
    (∃ m ∈ filter_matches
        [⟨some 2, none, [("E", 9000)]⟩, ⟨some 1, none, [("S", 1000)]⟩] none,
      (m.event "S").isSome) ∧
    (∃ m ts, m ∈ filter_matches
        [⟨some 2, none, [("E", 9000)]⟩, ⟨some 1, none, [("S", 1000)]⟩] none ∧
      m.event "S" = some ts ∧
      find_reference_time
        (filter_matches [⟨some 2, none, [("E", 9000)]⟩, ⟨some 1, none, [("S", 1000)]⟩] none)
        "S" = some (ts / 1000) ∧
      ∀ m' ∈ filter_matches
          [⟨some 2, none, [("E", 9000)]⟩, ⟨some 1, none, [("S", 1000)]⟩] none,
        (m'.event "S").isSome → m.numberKey ≤ m'.numberKey) :=
  ⟨⟨⟨some 1, none, [("S", 1000)]⟩, by decide⟩,
   C1_reference_time [⟨some 2, none, [("E", 9000)]⟩, ⟨some 1, none, [("S", 1000)]⟩] none "S"
     ⟨⟨some 1, none, [("S", 1000)]⟩, by decide⟩⟩

/-- C2: for every match record containing both event keys the computed
video positions are video_start = (start_ms/1000 - ref) + offset +
startOffset and video_end = (end_ms/1000 - ref) + offset + endOffset with
duration their difference, and the single ffmpeg invocation of a surviving
match uses exactly those values; in the concrete scenario with one match
(number 1, start 1000 ms, end 5000 ms), offset 0 and zero adjustments, the
reference time is 1, the video start is 0 and the duration is 4. -/
theorem C2_video_positions (args : Args) (ffmpeg : FfmpegCall → ProcResult)
    (ref_time ts te : ℚ) (m : MatchRecord)
    (h1 : m.event args.startKey = some ts) (h2 : m.event args.endKey = some te)
    (h3 : 0 < clip_duration args ref_time ts te) :
    video_start_time args ref_time ts = (ts / 1000 - ref_time) + args.offset + args.startOffset ∧
    video_end_time args ref_time te = (te / 1000 - ref_time) + args.offset + args.endOffset ∧
    clip_duration args ref_time ts te =
      video_end_time args ref_time te - video_start_time args ref_time ts ∧
    (process_match args ffmpeg ref_time m).2 =
      [⟨args.video, video_start_time args ref_time ts, clip_duration args ref_time ts te,
        output_file_name args.out m⟩] ∧
    (find_reference_time [⟨some 1, none, [("S", 1000), ("E", 5000)]⟩] "S" = some 1 ∧
     video_start_time ⟨"v", none, 0, "S", "E", 0, 0, "out"⟩ 1 1000 = 0 ∧
     clip_duration ⟨"v", none, 0, "S", "E", 0, 0, "out"⟩ 1 1000 5000 = 4) := by
  refine ⟨rfl, rfl, rfl, ?_, ?_, ?_, ?_⟩
  · unfold clip_duration at h3 ⊢
    have hd : ¬(video_end_time args ref_time te - video_start_time args ref_time ts ≤ 0) :=
      not_le.mpr h3
    rw [process_match, h1, h2]
    simp only [if_neg hd]
    rw [run_ffmpeg]
    split <;> rfl
  · rw [find_reference_time, sortByNumber_singleton]
    simp [MatchRecord.event, List.findSome?, List.lookup]
  · rw [video_start_time]
    norm_num
  · rw [clip_duration, video_start_time, video_end_time]
    norm_num

/-- Witness for C2: the scenario match itself survives and its invocation
starts at video position 0 with duration 4. -/
theorem C2_video_positions_witness :
    ((⟨some 1, none, [("S", 1000), ("E", 5000)]⟩ : MatchRecord).event "S" = some 1000 ∧
     (⟨some 1, none, [("S", 1000), ("E", 5000)]⟩ : MatchRecord).event "E" = some 5000 ∧
     0 < clip_duration ⟨"v", none, 0, "S", "E", 0, 0, "out"⟩ 1 1000 5000) ∧
    (video_start_time ⟨"v", none, 0, "S", "E", 0, 0, "out"⟩ 1 1000 =
        (1000 / 1000 - 1) + (0 : ℚ) + 0 ∧
     video_end_time ⟨"v", none, 0, "S", "E", 0, 0, "out"⟩ 1 5000 =
        (5000 / 1000 - 1) + (0 : ℚ) + 0 ∧
     clip_duration ⟨"v", none, 0, "S", "E", 0, 0, "out"⟩ 1 1000 5000 =
        video_end_time ⟨"v", none, 0, "S", "E", 0, 0, "out"⟩ 1 5000 -
          video_start_time ⟨"v", none, 0, "S", "E", 0, 0, "out"⟩ 1 1000 ∧
     (process_match ⟨"v", none, 0, "S", "E", 0, 0, "out"⟩ (fun _ => ⟨0, ""⟩) 1
        ⟨some 1, none, [("S", 1000), ("E", 5000)]⟩).2 =
       [⟨"v", video_start_time ⟨"v", none, 0, "S", "E", 0, 0, "out"⟩ 1 1000,
         clip_duration ⟨"v", none, 0, "S", "E", 0, 0, "out"⟩ 1 1000 5000,
         output_file_name "out" ⟨some 1, none, [("S", 1000), ("E", 5000)]⟩⟩] ∧
     (find_reference_time [⟨some 1, none, [("S", 1000), ("E", 5000)]⟩] "S" = some 1 ∧
      video_start_time ⟨"v", none, 0, "S", "E", 0, 0, "out"⟩ 1 1000 = 0 ∧
      clip_duration ⟨"v", none, 0, "S", "E", 0, 0, "out"⟩ 1 1000 5000 = 4)) :=
  ⟨⟨by decide, by decide,
    by rw [clip_duration, video_start_time, video_end_time]; norm_num⟩,
   C2_video_positions ⟨"v", none, 0, "S", "E", 0, 0, "out"⟩ (fun _ => ⟨0, ""⟩) 1 1000 5000
     ⟨some 1, none, [("S", 1000), ("E", 5000)]⟩ (by decide) (by decide)
     (by rw [clip_duration, video_start_time, video_end_time]; norm_num)⟩

/-- C4: a match whose computed duration is non-positive triggers no ffmpeg
invocation, emits the invalid-duration skip message, and the rest of the
batch is still processed unchanged. -/
theorem C4_nonpositive_duration_skipped (args : Args) (ffmpeg : FfmpegCall → ProcResult)
    (ref_time ts te : ℚ) (m : MatchRecord) (rest : List MatchRecord)
    (h1 : m.event args.startKey = some ts) (h2 : m.event args.endKey = some te)
    (h3 : clip_duration args ref_time ts te ≤ 0) :
    process_match args ffmpeg ref_time m =
      ([Msg.invalidDuration (match_name m) (video_start_time args ref_time ts)
          (video_end_time args ref_time te)], []) ∧
    process_all args ffmpeg ref_time (m :: rest) =
      (Msg.invalidDuration (match_name m) (video_start_time args ref_time ts)
          (video_end_time args ref_time te) :: (process_all args ffmpeg ref_time rest).1,
       (process_all args ffmpeg ref_time rest).2) := by
  unfold clip_duration at h3
  have hpm : process_match args ffmpeg ref_time m =
      ([Msg.invalidDuration (match_name m) (video_start_time args ref_time ts)
          (video_end_time args ref_time te)], []) := by
    rw [process_match, h1, h2]
    simp only [if_pos h3]
  refine ⟨hpm, ?_⟩
  rw [process_all_cons, hpm]
  rfl

/-- Witness for C4: a match whose end event is 1000 ms before its start
event is skipped and the (empty) rest of the batch is unaffected. -/
theorem C4_nonpositive_duration_skipped_witness :
    ((⟨some 1, none, [("S", 2000), ("E", 1000)]⟩ : MatchRecord).event "S" = some 2000 ∧
     (⟨some 1, none, [("S", 2000), ("E", 1000)]⟩ : MatchRecord).event "E" = some 1000 ∧
     clip_duration ⟨"v", none, 0, "S", "E", 0, 0, "out"⟩ 2 2000 1000 ≤ 0) ∧
    (process_match ⟨"v", none, 0, "S", "E", 0, 0, "out"⟩ (fun _ => ⟨0, ""⟩) 2
        ⟨some 1, none, [("S", 2000), ("E", 1000)]⟩ =
      ([Msg.invalidDuration (match_name ⟨some 1, none, [("S", 2000), ("E", 1000)]⟩)
          (video_start_time ⟨"v", none, 0, "S", "E", 0, 0, "out"⟩ 2 2000)
          (video_end_time ⟨"v", none, 0, "S", "E", 0, 0, "out"⟩ 2 1000)], []) ∧
     process_all ⟨"v", none, 0, "S", "E", 0, 0, "out"⟩ (fun _ => ⟨0, ""⟩) 2
        [⟨some 1, none, [("S", 2000), ("E", 1000)]⟩] =
      (Msg.invalidDuration (match_name ⟨some 1, none, [("S", 2000), ("E", 1000)]⟩)
          (video_start_time ⟨"v", none, 0, "S", "E", 0, 0, "out"⟩ 2 2000)
          (video_end_time ⟨"v", none, 0, "S", "E", 0, 0, "out"⟩ 2 1000) ::
        (process_all ⟨"v", none, 0, "S", "E", 0, 0, "out"⟩ (fun _ => ⟨0, ""⟩) 2 []).1,
       (process_all ⟨"v", none, 0, "S", "E", 0, 0, "out"⟩ (fun _ => ⟨0, ""⟩) 2 []).2)) :=
  ⟨⟨by decide, by decide,
    by rw [clip_duration, video_start_time, video_end_time]; norm_num⟩,
   C4_nonpositive_duration_skipped ⟨"v", none, 0, "S", "E", 0, 0, "out"⟩ (fun _ => ⟨0, ""⟩)
     2 2000 1000 ⟨some 1, none, [("S", 2000), ("E", 1000)]⟩ [] (by decide) (by decide)
     (by rw [clip_duration, video_start_time, video_end_time]; norm_num)⟩

/-- C5: a match lacking the designated start-event key or the designated
end-event key is skipped with a missing-event message for that key, no
ffmpeg invocation is performed for it, and the rest of the batch is still
processed unchanged. -/
theorem C5_missing_event_skipped (args : Args) (ffmpeg : FfmpegCall → ProcResult)
    (ref_time : ℚ) (m : MatchRecord) (rest : List MatchRecord)
    (h : m.event args.startKey = none ∨ m.event args.endKey = none) :
    ∃ k, (k = args.startKey ∨ k = args.endKey) ∧
      process_match args ffmpeg ref_time m = ([Msg.missingEvent (match_name m) k], []) ∧
      process_all args ffmpeg ref_time (m :: rest) =
        (Msg.missingEvent (match_name m) k :: (process_all args ffmpeg ref_time rest).1,
         (process_all args ffmpeg ref_time rest).2) := by
  rcases hs : m.event args.startKey with _ | ts
  · have hpm : process_match args ffmpeg ref_time m =
        ([Msg.missingEvent (match_name m) args.startKey], []) := by
      rw [process_match, hs]
    refine ⟨args.startKey, Or.inl rfl, hpm, ?_⟩
    rw [process_all_cons, hpm]
    rfl
  · rcases he : m.event args.endKey with _ | te
    · have hpm : process_match args ffmpeg ref_time m =
          ([Msg.missingEvent (match_name m) args.endKey], []) := by
        rw [process_match, hs, he]
      refine ⟨args.endKey, Or.inr rfl, hpm, ?_⟩
      rw [process_all_cons, hpm]
      rfl
    · rcases h with h | h
      · rw [hs] at h
        exact absurd h (by simp)
      · rw [he] at h
        exact absurd h (by simp)

/-- Witness for C5: a match that has the start event but no end event is
skipped with a message naming one of the two designated keys. -/
theorem C5_missing_event_skipped_witness :
    ((⟨some 1, none, [("S", 1000)]⟩ : MatchRecord).event "S" = none ∨
     (⟨some 1, none, [("S", 1000)]⟩ : MatchRecord).event "E" = none) ∧
    (∃ k, (k = (⟨"v", none, 0, "S", "E", 0, 0, "out"⟩ : Args).startKey ∨
        k = (⟨"v", none, 0, "S", "E", 0, 0, "out"⟩ : Args).endKey) ∧
      process_match ⟨"v", none, 0, "S", "E", 0, 0, "out"⟩ (fun _ => ⟨0, ""⟩) 1
          ⟨some 1, none, [("S", 1000)]⟩ =
        ([Msg.missingEvent (match_name ⟨some 1, none, [("S", 1000)]⟩) k], []) ∧
      process_all ⟨"v", none, 0, "S", "E", 0, 0, "out"⟩ (fun _ => ⟨0, ""⟩) 1
          [⟨some 1, none, [("S", 1000)]⟩] =
        (Msg.missingEvent (match_name ⟨some 1, none, [("S", 1000)]⟩) k ::
          (process_all ⟨"v", none, 0, "S", "E", 0, 0, "out"⟩ (fun _ => ⟨0, ""⟩) 1 []).1,
         (process_all ⟨"v", none, 0, "S", "E", 0, 0, "out"⟩ (fun _ => ⟨0, ""⟩) 1 []).2)) :=
  ⟨Or.inr (by decide),
   C5_missing_event_skipped ⟨"v", none, 0, "S", "E", 0, 0, "out"⟩ (fun _ => ⟨0, ""⟩) 1
     ⟨some 1, none, [("S", 1000)]⟩ [] (Or.inr (by decide))⟩

/-- C7: when the external tool exits with non-zero status for a surviving
match, the failure is reported with the captured standard error, and the
remaining matches are still processed: the batch result is the head's
trace followed by the untouched trace of the rest. -/
theorem C7_ffmpeg_failure_reported (args : Args) (ffmpeg : FfmpegCall → ProcResult)
    (ref_time ts te : ℚ) (m : MatchRecord) (rest : List MatchRecord)
    (h1 : m.event args.startKey = some ts) (h2 : m.event args.endKey = some te)
    (h3 : 0 < clip_duration args ref_time ts te)
    (h4 : (ffmpeg ⟨args.video, video_start_time args ref_time ts,
        clip_duration args ref_time ts te, output_file_name args.out m⟩).returncode ≠ 0) :
    process_match args ffmpeg ref_time m =
      ([Msg.processing (match_name m) (video_start_time args ref_time ts)
          (clip_duration args ref_time ts te),
        Msg.running ⟨args.video, video_start_time args ref_time ts,
          clip_duration args ref_time ts te, output_file_name args.out m⟩,
        Msg.ffmpegError (output_file_name args.out m)
          (ffmpeg ⟨args.video, video_start_time args ref_time ts,
            clip_duration args ref_time ts te, output_file_name args.out m⟩).stderr],
       [⟨args.video, video_start_time args ref_time ts,
          clip_duration args ref_time ts te, output_file_name args.out m⟩]) ∧
    process_all args ffmpeg ref_time (m :: rest) =
      ((process_match args ffmpeg ref_time m).1 ++ (process_all args ffmpeg ref_time rest).1,
       (process_match args ffmpeg ref_time m).2 ++ (process_all args ffmpeg ref_time rest).2) := by
  refine ⟨?_, process_all_cons args ffmpeg ref_time m rest⟩
  unfold clip_duration at h3 h4 ⊢
  have hd : ¬(video_end_time args ref_time te - video_start_time args ref_time ts ≤ 0) :=
    not_le.mpr h3
  rw [process_match, h1, h2]
  simp only [if_neg hd]
  rw [run_ffmpeg]
  simp only [if_pos h4]

/-- Witness for C7: an oracle that always fails with stderr text makes the
surviving scenario match report the failure while the batch goes on. -/
theorem C7_ffmpeg_failure_reported_witness :
    ((⟨some 1, none, [("S", 1000), ("E", 5000)]⟩ : MatchRecord).event "S" = some 1000 ∧
     (⟨some 1, none, [("S", 1000), ("E", 5000)]⟩ : MatchRecord).event "E" = some 5000 ∧
     0 < clip_duration ⟨"v", none, 0, "S", "E", 0, 0, "out"⟩ 1 1000 5000 ∧
     ((fun _ : FfmpegCall => (⟨1, "boom"⟩ : ProcResult)) ⟨"v",
        video_start_time ⟨"v", none, 0, "S", "E", 0, 0, "out"⟩ 1 1000,
        clip_duration ⟨"v", none, 0, "S", "E", 0, 0, "out"⟩ 1 1000 5000,
        output_file_name "out" ⟨some 1, none, [("S", 1000), ("E", 5000)]⟩⟩).returncode ≠ 0) ∧
    (process_match ⟨"v", none, 0, "S", "E", 0, 0, "out"⟩ (fun _ => ⟨1, "boom"⟩) 1
        ⟨some 1, none, [("S", 1000), ("E", 5000)]⟩ =
      ([Msg.processing (match_name ⟨some 1, none, [("S", 1000), ("E", 5000)]⟩)
          (video_start_time ⟨"v", none, 0, "S", "E", 0, 0, "out"⟩ 1 1000)
          (clip_duration ⟨"v", none, 0, "S", "E", 0, 0, "out"⟩ 1 1000 5000),
        Msg.running ⟨"v", video_start_time ⟨"v", none, 0, "S", "E", 0, 0, "out"⟩ 1 1000,
          clip_duration ⟨"v", none, 0, "S", "E", 0, 0, "out"⟩ 1 1000 5000,
          output_file_name "out" ⟨some 1, none, [("S", 1000), ("E", 5000)]⟩⟩,
        Msg.ffmpegError (output_file_name "out" ⟨some 1, none, [("S", 1000), ("E", 5000)]⟩)
          ((fun _ : FfmpegCall => (⟨1, "boom"⟩ : ProcResult)) (⟨"v",
            video_start_time ⟨"v", none, 0, "S", "E", 0, 0, "out"⟩ 1 1000,
            clip_duration ⟨"v", none, 0, "S", "E", 0, 0, "out"⟩ 1 1000 5000,
            output_file_name "out" ⟨some 1, none, [("S", 1000), ("E", 5000)]⟩⟩ : FfmpegCall)).stderr],
       [⟨"v", video_start_time ⟨"v", none, 0, "S", "E", 0, 0, "out"⟩ 1 1000,
          clip_duration ⟨"v", none, 0, "S", "E", 0, 0, "out"⟩ 1 1000 5000,
          output_file_name "out" ⟨some 1, none, [("S", 1000), ("E", 5000)]⟩⟩]) ∧
     process_all ⟨"v", none, 0, "S", "E", 0, 0, "out"⟩ (fun _ => ⟨1, "boom"⟩) 1
        [⟨some 1, none, [("S", 1000), ("E", 5000)]⟩] =
      ((process_match ⟨"v", none, 0, "S", "E", 0, 0, "out"⟩ (fun _ => ⟨1, "boom"⟩) 1
          ⟨some 1, none, [("S", 1000), ("E", 5000)]⟩).1 ++
        (process_all ⟨"v", none, 0, "S", "E", 0, 0, "out"⟩ (fun _ => ⟨1, "boom"⟩) 1 []).1,
       (process_match ⟨"v", none, 0, "S", "E", 0, 0, "out"⟩ (fun _ => ⟨1, "boom"⟩) 1
          ⟨some 1, none, [("S", 1000), ("E", 5000)]⟩).2 ++
        (process_all ⟨"v", none, 0, "S", "E", 0, 0, "out"⟩ (fun _ => ⟨1, "boom"⟩) 1 []).2)) :=
  ⟨⟨by decide, by decide,
    by rw [clip_duration, video_start_time, video_end_time]; norm_num,
    by decide⟩,
   C7_ffmpeg_failure_reported ⟨"v", none, 0, "S", "E", 0, 0, "out"⟩ (fun _ => ⟨1, "boom"⟩)
     1 1000 5000 ⟨some 1, none, [("S", 1000), ("E", 5000)]⟩ [] (by decide) (by decide)
     (by rw [clip_duration, video_start_time, video_end_time]; norm_num)
     (by decide)⟩

/-- The output file name as the claim words it (for comparison with
`output_file_name`, which embeds src/main.py lines 103 and 126): the name
component is the match's `name` field when present and its `number`
otherwise. -/
def claimed_output_file_name (out : String) (m : MatchRecord) : String :=
  out ++ "/full-match-" ++
    (m.name.getD (match m.number with
      | some n => toString n
      | none => "unknown")) ++ ".mkv"

/-- Counterexample to C8: for a match with number 1 and no `name` field the
program derives the file name from `Match_1`, not from the bare number `1`,
so the produced name differs from the claimed one. -/
theorem C8_output_name_counterexample :
    output_file_name "out" ⟨some 1, none, [("S", 1000), ("E", 5000)]⟩ =
      "out/full-match-Match_1.mkv" ∧
    claimed_output_file_name "out" ⟨some 1, none, [("S", 1000), ("E", 5000)]⟩ =
      "out/full-match-1.mkv" ∧
    output_file_name "out" ⟨some 1, none, [("S", 1000), ("E", 5000)]⟩ ≠
      claimed_output_file_name "out" ⟨some 1, none, [("S", 1000), ("E", 5000)]⟩ := by
  refine ⟨by decide, by decide, by decide⟩

/-- C8 amended: every surviving match produces exactly one output file,
written into the output directory and named `full-match-<name>.mkv` where
the name component is the match's `name` field when present and
`Match_<number>` otherwise (`Match_unknown` when the number is also
absent); the container extension is `mkv`. -/
theorem C8_output_file_amended (args : Args) (ffmpeg : FfmpegCall → ProcResult)
    (ref_time ts te : ℚ) (m : MatchRecord)
    (h1 : m.event args.startKey = some ts) (h2 : m.event args.endKey = some te)
    (h3 : 0 < clip_duration args ref_time ts te) :
    (process_match args ffmpeg ref_time m).2.map FfmpegCall.output_file =
      [output_file_name args.out m] ∧
    output_file_name args.out m =
      args.out ++ "/full-match-" ++
        (m.name.getD ("Match_" ++ (match m.number with
          | some n => toString n
          | none => "unknown"))) ++ ".mkv" := by
  refine ⟨?_, rfl⟩
  unfold clip_duration at h3
  have hd : ¬(video_end_time args ref_time te - video_start_time args ref_time ts ≤ 0) :=
    not_le.mpr h3
  rw [process_match, h1, h2]
  simp only [if_neg hd]
  rw [run_ffmpeg]
  split <;> rfl

/-- Witness for the amended C8: the surviving scenario match produces one
file named from the `Match_1` fallback. -/
theorem C8_output_file_amended_witness :
    ((⟨some 1, none, [("S", 1000), ("E", 5000)]⟩ : MatchRecord).event "S" = some 1000 ∧
     (⟨some 1, none, [("S", 1000), ("E", 5000)]⟩ : MatchRecord).event "E" = some 5000 ∧
     0 < clip_duration ⟨"v", none, 0, "S", "E", 0, 0, "out"⟩ 1 1000 5000) ∧
    ((process_match ⟨"v", none, 0, "S", "E", 0, 0, "out"⟩
        (fun _ => ⟨0, ""⟩) 1 ⟨some 1, none, [("S", 1000), ("E", 5000)]⟩).2.map
          FfmpegCall.output_file =
      [output_file_name "out" ⟨some 1, none, [("S", 1000), ("E", 5000)]⟩] ∧
     output_file_name "out" ⟨some 1, none, [("S", 1000), ("E", 5000)]⟩ =
      "out" ++ "/full-match-" ++
        ((⟨some 1, none, [("S", 1000), ("E", 5000)]⟩ : MatchRecord).name.getD
          ("Match_" ++ (match (⟨some 1, none, [("S", 1000), ("E", 5000)]⟩ : MatchRecord).number with
            | some n => toString n
            | none => "unknown"))) ++ ".mkv") :=
  ⟨⟨by decide, by decide,
    by rw [clip_duration, video_start_time, video_end_time]; norm_num⟩,
   C8_output_file_amended ⟨"v", none, 0, "S", "E", 0, 0, "out"⟩ (fun _ => ⟨0, ""⟩)
     1 1000 5000 ⟨some 1, none, [("S", 1000), ("E", 5000)]⟩ (by decide) (by decide)
     (by rw [clip_duration, video_start_time, video_end_time]; norm_num)⟩

/-- C10: a record lacking a `number` field gets sort key 0, so in the
sorted order used by the reference-time search and the processing loop it
never comes after a record of positive number (anything before it has sort
key at most 0); it can itself supply the reference time; and a record
without a `number` field survives range filtering only when no range is
given. -/
theorem C10_missing_number_sorts_as_zero
    (l pre post : List MatchRecord) (m' m : MatchRecord)
    («matches» : List MatchRecord) (lo hi : ℚ) (mr : MatchRecord)
    (hsplit : sortByNumber l = pre ++ m' :: post)
    (hm : m ∈ post) (hnone : m.number = none)
    (hmr : mr ∈ filter_matches «matches» (some (lo, hi))) :
    m.numberKey = 0 ∧
    m'.numberKey ≤ 0 ∧
    mr.number ≠ none ∧
    find_reference_time [⟨none, none, [("S", 2000)]⟩, ⟨some 5, none, [("S", 9000)]⟩] "S" =
      some 2 := by
  have hkey : m.numberKey = 0 := by
    rw [MatchRecord.numberKey, hnone]
    rfl
  refine ⟨hkey, ?_, ?_, ?_⟩
  · have hp := sortByNumber_pairwise l
    rw [hsplit] at hp
    have hcons := (List.pairwise_append.mp hp).2.1
    have hle := (List.pairwise_cons.mp hcons).1 m hm
    rwa [hkey] at hle
  · intro hno
    rw [filter_matches] at hmr
    have := (List.mem_filter.mp hmr).2
    rw [hno] at this
    simp at this
  · rw [find_reference_time, sortByNumber_of_sorted (by decide)]
    simp [MatchRecord.event, List.findSome?, List.lookup]
    norm_num

/-- Witness for C10: a two-record list of sort keys 0 and 0 where the later
record lacks a `number`, and a filtered record with number 1 in range. -/
theorem C10_missing_number_sorts_as_zero_witness :
    (sortByNumber [⟨none, some "a", []⟩, ⟨none, some "b", []⟩] =
      [] ++ (⟨none, some "a", []⟩ : MatchRecord) :: [⟨none, some "b", []⟩] ∧
     (⟨none, some "b", []⟩ : MatchRecord) ∈ [(⟨none, some "b", []⟩ : MatchRecord)] ∧
     (⟨none, some "b", []⟩ : MatchRecord).number = none ∧
     (⟨some 1, none, []⟩ : MatchRecord) ∈ filter_matches [⟨some 1, none, []⟩] (some (1, 2))) ∧
    ((⟨none, some "b", []⟩ : MatchRecord).numberKey = 0 ∧
     (⟨none, some "a", []⟩ : MatchRecord).numberKey ≤ 0 ∧
     (⟨some 1, none, []⟩ : MatchRecord).number ≠ none ∧
     find_reference_time [⟨none, none, [("S", 2000)]⟩, ⟨some 5, none, [("S", 9000)]⟩] "S" =
       some 2) :=
  ⟨⟨sortByNumber_of_sorted (by decide), by decide, rfl, by decide⟩,
   C10_missing_number_sorts_as_zero [⟨none, some "a", []⟩, ⟨none, some "b", []⟩]
     [] [⟨none, some "b", []⟩] ⟨none, some "a", []⟩ ⟨none, some "b", []⟩
     [⟨some 1, none, []⟩] 1 2 ⟨some 1, none, []⟩
     (sortByNumber_of_sorted (by decide)) (by decide) rfl (by decide)⟩

/-- The reference-time search fails exactly when no record in the list
contains the start-event key. -/
theorem find_reference_time_eq_none_iff (fm : List MatchRecord) (k : String) :
    find_reference_time fm k = none ↔ ∀ m ∈ fm, m.event k = none := by
  rw [find_reference_time, List.findSome?_eq_none_iff]
  constructor
  · intro h m hm
    have h₀ := h m (mem_sortByNumber.mpr hm)
    rwa [Option.map_eq_none'] at h₀
  · intro h m hm
    rw [h m (mem_sortByNumber.mp hm)]
    rfl

/-- C6: the exit code is 1 exactly when the JSON file or the video file is
missing, the `matches` key is absent, or the filtered match set is
non-empty yet no filtered match contains the start-event key; it is 0 with
the no-matches result when the filtered set is empty; it is 0 on normal
completion; and the external tool's per-clip results never change the exit
code. -/
theorem C6_exit_codes (env : Env) (args : Args) (ffmpeg ffmpeg2 : FfmpegCall → ProcResult) :
    ((main_run env args ffmpeg).exitCode = 1 ↔
      env.json_exists = false ∨ env.video_exists = false ∨ env.matchesData = none ∨
      (∃ ms, env.matchesData = some ms ∧ filter_matches ms args.range ≠ [] ∧
        ∀ m ∈ filter_matches ms args.range, m.event args.startKey = none)) ∧
    (∀ ms, env.json_exists = true → env.video_exists = true →
      env.matchesData = some ms → filter_matches ms args.range = [] →
      main_run env args ffmpeg = MainResult.noMatchesFound ∧
      (main_run env args ffmpeg).exitCode = 0) ∧
    (∀ ref_time msgs calls,
      main_run env args ffmpeg = MainResult.completed ref_time msgs calls →
      (main_run env args ffmpeg).exitCode = 0) ∧
    (main_run env args ffmpeg2).exitCode = (main_run env args ffmpeg).exitCode := by
  obtain ⟨je, ve, md⟩ := env
  cases je with
  | false => simp [main_run, MainResult.exitCode]
  | true =>
    cases ve with
    | false => simp [main_run, MainResult.exitCode]
    | true =>
      cases md with
      | none => simp [main_run, MainResult.exitCode]
      | some ms =>
        by_cases hfe : filter_matches ms args.range = []
        · simp [main_run, MainResult.exitCode, hfe, List.isEmpty_iff]
        · have hne : (filter_matches ms args.range).isEmpty = false := by
            rw [List.isEmpty_eq_false]
            exact hfe
          cases hfr : find_reference_time (filter_matches ms args.range) args.startKey with
          | none =>
            have hall := (find_reference_time_eq_none_iff _ _).mp hfr
            have hmain : ∀ ff, main_run ⟨true, true, some ms⟩ args ff =
                MainResult.noReferenceTime := by
              intro ff
              simp [main_run, hne, hfr]
            refine ⟨?_, ?_, ?_, ?_⟩
            · rw [hmain ffmpeg]
              exact iff_of_true rfl (Or.inr (Or.inr (Or.inr ⟨ms, rfl, hfe, hall⟩)))
            · intro ms2 _ _ hms2 hfil2
              rw [← Option.some.inj hms2] at hfil2
              exact absurd hfil2 hfe
            · intro r mg cl hcomp
              rw [hmain ffmpeg] at hcomp
              exact MainResult.noConfusion hcomp
            · rw [hmain ffmpeg, hmain ffmpeg2]
          | some ref_time =>
            have hnotall :
                ¬(∀ m ∈ filter_matches ms args.range, m.event args.startKey = none) := by
              intro hall
              rw [(find_reference_time_eq_none_iff _ _).mpr hall] at hfr
              exact Option.noConfusion hfr
            simp [main_run, MainResult.exitCode, hne, hfr, hfe, hnotall]

/-- Witness for C6: the characterisation instantiated at a run whose JSON
file is missing. -/
theorem C6_exit_codes_witness :
    ((main_run ⟨false, true, none⟩ ⟨"v", none, 0, "S", "E", 0, 0, "out"⟩
        (fun _ => ⟨0, ""⟩)).exitCode = 1 ↔
      (⟨false, true, none⟩ : Env).json_exists = false ∨
      (⟨false, true, none⟩ : Env).video_exists = false ∨
      (⟨false, true, none⟩ : Env).matchesData = none ∨
      (∃ ms, (⟨false, true, none⟩ : Env).matchesData = some ms ∧
        filter_matches ms (⟨"v", none, 0, "S", "E", 0, 0, "out"⟩ : Args).range ≠ [] ∧
        ∀ m ∈ filter_matches ms (⟨"v", none, 0, "S", "E", 0, 0, "out"⟩ : Args).range,
          m.event (⟨"v", none, 0, "S", "E", 0, 0, "out"⟩ : Args).startKey = none)) ∧
    (∀ ms, (⟨false, true, none⟩ : Env).json_exists = true →
      (⟨false, true, none⟩ : Env).video_exists = true →
      (⟨false, true, none⟩ : Env).matchesData = some ms →
      filter_matches ms (⟨"v", none, 0, "S", "E", 0, 0, "out"⟩ : Args).range = [] →
      main_run ⟨false, true, none⟩ ⟨"v", none, 0, "S", "E", 0, 0, "out"⟩
          (fun _ => ⟨0, ""⟩) = MainResult.noMatchesFound ∧
      (main_run ⟨false, true, none⟩ ⟨"v", none, 0, "S", "E", 0, 0, "out"⟩
          (fun _ => ⟨0, ""⟩)).exitCode = 0) ∧
    (∀ ref_time msgs calls,
      main_run ⟨false, true, none⟩ ⟨"v", none, 0, "S", "E", 0, 0, "out"⟩
          (fun _ => ⟨0, ""⟩) = MainResult.completed ref_time msgs calls →
      (main_run ⟨false, true, none⟩ ⟨"v", none, 0, "S", "E", 0, 0, "out"⟩
          (fun _ => ⟨0, ""⟩)).exitCode = 0) ∧
    (main_run ⟨false, true, none⟩ ⟨"v", none, 0, "S", "E", 0, 0, "out"⟩
        (fun _ => ⟨1, "boom"⟩)).exitCode =
      (main_run ⟨false, true, none⟩ ⟨"v", none, 0, "S", "E", 0, 0, "out"⟩
        (fun _ => ⟨0, ""⟩)).exitCode :=
  C6_exit_codes ⟨false, true, none⟩ ⟨"v", none, 0, "S", "E", 0, 0, "out"⟩
    (fun _ => ⟨0, ""⟩) (fun _ => ⟨1, "boom"⟩)
